import Mathlib

/-!
Shallow embedding of the core logic of the runpod-kiss-video-api repository:
the image preprocessor, the deterministic morphing frame interpolator, the
video-encoding step and the result packager, as implemented (in near-identical
copies) in handler.serverless.py, handler.production.py, handler.py and
handler_serverless.py.  The Python code computes the blend weights and the
rescale factors with IEEE float64 (numpy/CPython); those computations are
embedded in two layers.  The exact-real idealizations (morphAlpha,
blendChannel, scaledW, scaledH) are used only where they provably agree with
the float64 program: at the endpoint weights, where the double easing value
rounds to exactly 0.0 and (1 - 0.0) * s + 0.0 * t = s is exact, and in
strict inequalities whose margin towers over double round-off.  Where a value
can sit exactly on an integer -- the uint8 truncation of the blend at equal
channels, and int(512 / aspect) at exact-integer ratios -- the float64 result
can land one ulp below the exact value and truncate one lower, so those
computations are modelled by explicit error envelopes (fpBlendOutcome,
progScaledH) that contain every value the float64 program can produce, and
the corresponding theorems quantify over all such outcomes.
-/

namespace KissVideo

/-- An RGB pixel: three 8-bit channels (red, green, blue), stored as naturals. -/
structure Pix where
  r : Nat
  g : Nat
  b : Nat
deriving DecidableEq, Repr

/-- A pixel is in 8-bit range when every channel is at most 255. -/
def Pix.le255 (p : Pix) : Prop := p.r ≤ 255 ∧ p.g ≤ 255 ∧ p.b ≤ 255

/-- An in-memory RGB raster (the repository's `Image`/frame data): a width, a
height, and a pixel lookup.  The lookup is total, matching numpy arrays read
through total index functions; only indices below the width/height are ever
observed by the code. -/
structure Image where
  width : Nat
  height : Nat
  pixel : Nat → Nat → Pix

@[ext]
theorem Image.ext {a b : Image} (hw : a.width = b.width) (hh : a.height = b.height)
    (hp : ∀ x y, a.pixel x y = b.pixel x y) : a = b := by
  cases a; cases b
  simp only [Image.mk.injEq]
  exact ⟨hw, hh, funext fun x => funext fun y => hp x y⟩

/-- An image is valid when every pixel is in 8-bit range (numpy uint8 data). -/
def Image.valid (img : Image) : Prop := ∀ x y, (img.pixel x y).le255

/-- A constant (solid-colour) raster. -/
def constImage (w h : Nat) (p : Pix) : Image :=
  { width := w, height := h, pixel := fun _ _ => p }

/-- Model of the PIL library call `image.resize((newW, newH))` used by the
handlers.  PIL is an external library (not code of this repository); the
handlers rely only on the output having the requested dimensions and on the
resampling mapping a constant raster to a constant raster, so it is modelled
as nearest-neighbour sampling, which has exactly those two properties. -/
def Image.resize (img : Image) (newW newH : Nat) : Image :=
  { width := newW, height := newH,
    pixel := fun x y => img.pixel (x * img.width / newW) (y * img.height / newH) }

theorem resize_width (img : Image) (w h : Nat) : (img.resize w h).width = w := rfl

theorem resize_height (img : Image) (w h : Nat) : (img.resize w h).height = h := rfl

/-- Resizing a 512 by 512 raster to 512 by 512 is the identity. -/
theorem resize_self (img : Image) (hw : img.width = 512) (hh : img.height = 512) :
    img.resize 512 512 = img := by
  ext x y
  · exact hw.symm
  · exact hh.symm
  · simp [Image.resize, hw, hh, Nat.mul_div_cancel]

/-- Resizing a constant raster yields a constant raster. -/
theorem resize_constImage (w h nw nh : Nat) (p : Pix) :
    (constImage w h p).resize nw nh = constImage nw nh p := rfl

theorem valid_resize {img : Image} (h : img.valid) (w hgt : Nat) :
    (img.resize w hgt).valid := fun _ _ => h _ _

theorem valid_constImage (w h : Nat) {p : Pix} (hp : p.le255) :
    (constImage w h p).valid := fun _ _ => hp

/-- Scaled width chosen by `preprocess_image` in handler.serverless.py (and by
`preprocess_face_image` in handler.production.py), as the exact-real
idealization: the Python code computes `aspect = w / h` in float64 and
branches on `aspect > 1`, which for positive integer dimensions holds exactly
when `h < w` (float64 comparison is exact here); in the taller-or-square
branch `int(target_h * aspect)` idealizes to the integer floor of
`target_h * w / h`.  The float64 multiply agrees with this floor at every
dimension pair up to 4096; the program-faithful statement is `progScaledW`. -/
def scaledW (img : Image) (targetW targetH : Nat) : Nat :=
  if img.height < img.width then targetW else targetH * img.width / img.height

/-- Scaled height chosen by `preprocess_image`, as the exact-real idealization:
`int(target_w / aspect)` in the wider-than-tall branch idealizes to the
integer floor of `target_w * h / w`.  The program's float64 division can land
one ulp BELOW the exact quotient, so when the exact quotient is an integer the
truncated program value is one less than this floor (example: 128 wide by 93
tall, exact quotient 372.0, program int(371.99999999999994) = 371); the
program-faithful statement is `progScaledH`. -/
def scaledH (img : Image) (targetW targetH : Nat) : Nat :=
  if img.height < img.width then targetW * img.height / img.width else targetH

/-- The program's scaled width at the default 512 target.  In the
wider-than-tall branch the code assigns the literal target width; in the other
branch `int(512 * aspect)` is evaluated in float64, whose relative error
(about 2^-52) is far below the 1/4096 spacing separating the non-integer
values of 512 * w / h from integers for dimensions up to 4096, and which
cannot cross an exactly representable integer product either, so the program
value coincides with the exact floor throughout that range. -/
def progScaledW (img : Image) (q : Nat) : Prop := q = scaledW img 512 512

/-- The possible program values of the scaled height at the default 512
target.  In the wider-than-tall branch the code computes
`int(512 / (w / h))` in float64: the quotient lies within relative 2^-50 of
the exact 512 * h / w, and for dimensions up to 4096 a non-integer exact
quotient is at least 1/4096 from any integer, so truncation gives the exact
floor -- except when the exact quotient is an integer (w divides 512 * h),
where the double can land one ulp below it and truncation gives one less.  In
the taller-or-square branch the code assigns the literal 512. -/
def progScaledH (img : Image) (q : Nat) : Prop :=
  if img.height < img.width then
    q = scaledH img 512 512 ∨
      (q + 1 = scaledH img 512 512 ∧ 512 * img.height % img.width = 0)
  else q = scaledH img 512 512

/-- Horizontal paste offset `paste_x = (target_w - new_w) // 2`. -/
def padX (img : Image) (targetW targetH : Nat) : Nat :=
  (targetW - scaledW img targetW targetH) / 2

/-- Vertical paste offset `paste_y = (target_h - new_h) // 2`. -/
def padY (img : Image) (targetW targetH : Nat) : Nat :=
  (targetH - scaledH img targetW targetH) / 2

/-- The image preprocessor `preprocess_image(image, size)` of
handler.serverless.py lines 211-236: aspect-preserving scale so that the longer
side maps to the corresponding target dimension, LANCZOS resize (modelled via
`Image.resize`), then centred paste onto a black canvas of the target size.
The scaled dimensions here are the exact-floor idealizations `scaledW` and
`scaledH`; the program-faithful letterbox, parametric in the dimensions the
float64 program actually computed, is `letterbox` combined with `progScaledW`
and `progScaledH`. -/
def preprocess_image (img : Image) (targetW targetH : Nat) : Image :=
  let nw := scaledW img targetW targetH
  let nh := scaledH img targetW targetH
  let resized := img.resize nw nh
  let px := padX img targetW targetH
  let py := padY img targetW targetH
  { width := targetW, height := targetH,
    pixel := fun x y =>
      if px ≤ x ∧ x < px + nw ∧ py ≤ y ∧ y < py + nh then
        resized.pixel (x - px) (y - py)
      else ⟨0, 0, 0⟩ }

/-- The canvas-assembly part of `preprocess_image` at the default 512 by 512
target, as a function of the scaled dimensions (nw, nh) the program computed:
LANCZOS resize to (nw, nh), black canvas, centred paste with the offsets
`paste_x = (512 - nw) // 2` and `paste_y = (512 - nh) // 2`. -/
def letterbox (img : Image) (nw nh : Nat) : Image :=
  { width := 512, height := 512,
    pixel := fun x y =>
      if (512 - nw) / 2 ≤ x ∧ x < (512 - nw) / 2 + nw ∧
          (512 - nh) / 2 ≤ y ∧ y < (512 - nh) / 2 + nh then
        (img.resize nw nh).pixel (x - (512 - nw) / 2) (y - (512 - nh) / 2)
      else ⟨0, 0, 0⟩ }

/-!
The deterministic morphing frame interpolator, `create_morphing_fallback` in
handler.serverless.py lines 426-440 (identically in handler.production.py
lines 300-319, handler_serverless.py lines 255-269, and, with an added text
overlay, handler.py's `create_morphing_video`):

    source_array = np.array(source_image.resize((512, 512)))
    target_array = np.array(target_image.resize((512, 512)))
    for i in range(48):
        t = i / 47
        alpha = 0.5 * (1 + np.sin(2 * np.pi * t - np.pi/2))
        blended = (1 - alpha) * source_array + alpha * target_array
        frames.append(blended.astype(np.uint8))

handler.production.py writes the frame count as a variable `num_frames = 48`
and `t = i / (num_frames - 1)`; the definitions below keep that parameter and
instantiate it at 48.
-/

open Real in
/-- The easing blend weight `alpha = 0.5 * (1 + np.sin(2 * np.pi * t - np.pi/2))`
with `t = i / (n - 1)`. -/
noncomputable def morphAlpha (n i : Nat) : ℝ :=
  0.5 * (1 + Real.sin (2 * Real.pi * ((i : ℝ) / ((n : ℝ) - 1)) - Real.pi / 2))

/-- The cast `astype(np.uint8)` applied to a nonnegative float: C truncation
toward zero, reduced mod 256.  (For the values produced by the blend the
argument is always in [0, 255], where this is exactly the integer floor.) -/
noncomputable def uint8OfReal (x : ℝ) : Nat := Int.toNat ⌊x⌋ % 256

/-- One channel of `blended = (1 - alpha) * source_array + alpha * target_array`
followed by the uint8 cast -- the exact-real idealization of the program's
float64 blend.  The float64 value can differ from the exact one: at equal
source/target channels (exact blend the integer s) the double can land one ulp
below s and the cast then stores s - 1.  This idealization is therefore used
only where it is program-exact (weight exactly 0.0, where the float blend is
literally s) or where ample margin separates the compared values; the float64
behaviour in general is modelled by `fpBlendOutcome` below. -/
noncomputable def blendChannel (a : ℝ) (s t : Nat) : Nat :=
  uint8OfReal ((1 - a) * (s : ℝ) + a * (t : ℝ))

/-- The per-pixel blend, applied channelwise as numpy array arithmetic does. -/
noncomputable def blendPix (a : ℝ) (s t : Pix) : Pix :=
  ⟨blendChannel a s.r t.r, blendChannel a s.g t.g, blendChannel a s.b t.b⟩

/-- Frame `i` of the morphing interpolation of `n` frames: the blend of the two
endpoint images after their direct resize to 512 by 512. -/
noncomputable def morphFrame (s t : Image) (n i : Nat) : Image :=
  { width := 512, height := 512,
    pixel := fun x y =>
      blendPix (morphAlpha n i) ((s.resize 512 512).pixel x y)
        ((t.resize 512 512).pixel x y) }

/-- The interpolated frame sequence `frames` built by the loop `for i in range(n)`. -/
noncomputable def morphFrames (s t : Image) (n : Nat) : List Image :=
  (List.range n).map (morphFrame s t n)

/-- The frame list built by `create_morphing_fallback`: 48 frames. -/
noncomputable def create_morphing_fallback_frames (s t : Image) : List Image :=
  morphFrames s t 48

/-- At `i = 0` the easing weight is exactly 0: `sin(-pi/2) = -1`. -/
theorem morphAlpha_zero (n : Nat) : morphAlpha n 0 = 0 := by
  simp [morphAlpha, Real.sin_sub_pi_div_two]

/-- At the last frame `i = n - 1` (so `t = 1`) the easing weight is exactly 0
again: `sin(2*pi - pi/2) = sin(-pi/2) = -1`.  The spec's statement that the
curve reaches `alpha = 1` at `t = 1` is false; the curve is
`0.5 * (1 - cos(2*pi*t))`, which returns to 0 at `t = 1`. -/
theorem morphAlpha_last {n : Nat} (hn : 2 ≤ n) : morphAlpha n (n - 1) = 0 := by
  have h1 : (1 : ℝ) ≤ (n : ℝ) := by exact_mod_cast Nat.one_le_of_lt hn
  have hne : (n : ℝ) - 1 ≠ 0 := by
    have : (2 : ℝ) ≤ (n : ℝ) := by exact_mod_cast hn
    linarith
  have hcast : ((n - 1 : Nat) : ℝ) = (n : ℝ) - 1 := by
    rw [Nat.cast_sub (by omega)]
    norm_num
  have ht : ((n - 1 : Nat) : ℝ) / ((n : ℝ) - 1) = 1 := by
    rw [hcast, div_self hne]
  have : 2 * Real.pi * (((n - 1 : Nat) : ℝ) / ((n : ℝ) - 1)) - Real.pi / 2 =
      (-(Real.pi / 2)) + 2 * Real.pi := by
    rw [ht]; ring
  rw [morphAlpha, this, Real.sin_add_two_pi, Real.sin_neg, Real.sin_pi_div_two]
  ring

/-- The easing weight always lies in [0, 1] (so the blend is convex). -/
theorem morphAlpha_mem (n i : Nat) : 0 ≤ morphAlpha n i ∧ morphAlpha n i ≤ 1 := by
  have h1 := Real.neg_one_le_sin (2 * Real.pi * ((i : ℝ) / ((n : ℝ) - 1)) - Real.pi / 2)
  have h2 := Real.sin_le_one (2 * Real.pi * ((i : ℝ) / ((n : ℝ) - 1)) - Real.pi / 2)
  constructor <;> (unfold morphAlpha; linarith)

/-- Blending with weight 0 returns the source channel unchanged (for 8-bit data). -/
theorem blendChannel_zero {s : Nat} (hs : s ≤ 255) (t : Nat) :
    blendChannel 0 s t = s := by
  have : (1 - (0 : ℝ)) * (s : ℝ) + 0 * (t : ℝ) = (s : ℝ) := by ring
  rw [blendChannel, this, uint8OfReal, Int.floor_natCast, Int.toNat_natCast,
    Nat.mod_eq_of_lt (by omega)]

theorem blendPix_zero {s : Pix} (hs : s.le255) (t : Pix) : blendPix 0 s t = s := by
  obtain ⟨h1, h2, h3⟩ := hs
  simp [blendPix, blendChannel_zero h1, blendChannel_zero h2, blendChannel_zero h3]

/-- The easing curve in cosine form: `0.5 * (1 + sin(x - pi/2)) = 0.5 * (1 - cos x)`. -/
theorem morphAlpha_eq_cos (n i : Nat) :
    morphAlpha n i = 0.5 * (1 - Real.cos (2 * Real.pi * ((i : ℝ) / ((n : ℝ) - 1)))) := by
  rw [morphAlpha, Real.sin_sub_pi_div_two]; ring

/-- Numeric bounds for the blend weight of frame 23 out of 48: `t = 23/47`, and
`cos(46*pi/47)` lies strictly between -1 and -1/2, so `alpha` lies strictly
between 3/4 and 1.  (The margin, about 0.25, towers over double round-off.) -/
theorem morphAlpha_23_bounds : 3 / 4 < morphAlpha 48 23 ∧ morphAlpha 48 23 < 1 := by
  have hpi := Real.pi_pos
  have key : morphAlpha 48 23 = 0.5 * (1 - Real.cos ((46 / 47) * Real.pi)) := by
    rw [morphAlpha_eq_cos]
    norm_num
    ring_nf
  have h1 : Real.cos ((46 / 47) * Real.pi) < Real.cos ((2 / 3) * Real.pi) := by
    apply Real.cos_lt_cos_of_nonneg_of_le_pi
    · positivity
    · nlinarith
    · nlinarith
  have h2 : Real.cos ((2 / 3) * Real.pi) = -(1 / 2) := by
    have h23 : (2 / 3 : ℝ) * Real.pi = Real.pi - Real.pi / 3 := by ring
    rw [h23, Real.cos_pi_sub, Real.cos_pi_div_three]
  have h3 : Real.cos Real.pi < Real.cos ((46 / 47) * Real.pi) := by
    apply Real.cos_lt_cos_of_nonneg_of_le_pi
    · positivity
    · exact le_refl _
    · nlinarith
  rw [Real.cos_pi] at h3
  constructor <;> nlinarith

/-- Generous absolute error envelope for the program's float64 evaluation of
one blended channel, relative to the exact real value: np.sin is within a
couple of ulps of the exact sine, the float64 pi constants are within half an
ulp (propagated through the unit-bounded derivative of sine), and the blend is
a handful of correctly rounded IEEE operations on values of magnitude at most
512, so the computed double differs from the exact real blend by well under
2^-30 (the true deviation is below 2^-40). -/
noncomputable def fpErr : ℝ := ((2 : ℝ) ^ 30)⁻¹

/-- The possible stored uint8 channel values of the program's float64 blend:
`r` is an outcome when some value `v` inside the error envelope of the exact
blend truncates (toward zero, mod 256) to it.  The float64 value the program
actually computes always lies in the envelope, so every property proved for
all outcomes holds of the program; in particular the observed behaviour that
equal channels s = t can store s - 1 (the double lands one ulp below s) is an
admitted outcome. -/
def fpBlendOutcome (a : ℝ) (s t r : Nat) : Prop :=
  ∃ v : ℝ, |v - ((1 - a) * (s : ℝ) + a * (t : ℝ))| ≤ fpErr ∧
    r = Int.toNat ⌊v⌋ % 256

/-!
The video-encoding step `create_video_from_frames(frames, fps, return_url)` of
handler.serverless.py lines 321-381 and the result assembly
`generate_ai_kiss_video(source_url, target_url, return_url)` of lines 442-535.

The OpenCV writer and the file.io upload sink are external collaborators; they
are modelled by two host booleans.  The modelled library semantics, from the
documented behaviour of the libraries used:
  * `cv2.VideoWriter(path, fourcc, fps, size)` never raises when the backend
    cannot open the requested codec/container; it returns a writer whose
    `isOpened()` is false, whose `write` calls are silent no-ops, and which
    creates no output file (the code never calls `isOpened`).
  * `tempfile.mktemp` only generates a name; the file exists only once the
    writer actually opens.  So when the writer failed to open, the read-back
    `open(output_path, 'rb')` (or `os.path.getsize` on the URL path) raises a
    file-not-found error.
  * `cv2.cvtColor(frame, cv2.COLOR_RGB2BGR)` swaps the red and blue channels.
  * the upload either succeeds, or raises inside `upload_to_temp_storage`
    (caught by the handler, which then falls back to inline base64).
-/

/-- The Python exceptions (and the spec's error taxonomy) that can surface from
the encode and packaging steps.  `encodingError` is the spec's `EncodingError`
category, a detected writer-open failure; it is included so that statements
about it can be made, and the code is shown never to produce it. -/
inductive PyError
  | valueErrorNoFrames
  | fileNotFound
  | encodingError
  | downloadFailed
  | aiFailed
deriving DecidableEq, Repr

/-- External collaborators of one encode call. -/
structure Host where
  writerOpens : Bool
  uploadOk : Bool
deriving DecidableEq, Repr

/-- RGB to BGR channel swap performed per frame before `video_writer.write`. -/
def Pix.toBgr (p : Pix) : Pix := ⟨p.b, p.g, p.r⟩

def Image.toBgr (img : Image) : Image :=
  { width := img.width, height := img.height,
    pixel := fun x y => (img.pixel x y).toBgr }

/-- The encoded video: the ordered BGR frames muxed into the container, and the
frame rate.  (Byte-level container layout is opaque in the spec as well.) -/
structure EncodedVideo where
  frames : List Image
  fps : Nat

/-- What `create_video_from_frames` hands back on success: either the base64
string of the file (modelled by the video it encodes) or the upload-result
dict with the hosted URL. -/
inductive VideoResult
  | b64 (video : EncodedVideo)
  | hosted (video : EncodedVideo)

/-- The encoded video carried by either result form. -/
def VideoResult.video : VideoResult → EncodedVideo
  | .b64 v => v
  | .hosted v => v

/-- `create_video_from_frames(frames, fps=24, return_url=False)` from
handler.serverless.py lines 321-381: raise `ValueError` on an empty frame
list; construct the OpenCV writer (never checking `isOpened`); write every
frame, converted to BGR, in order; on the URL path try the upload, and on
upload failure fall back to returning the base64 of the local file.  When the
writer failed to open, every write is a no-op and no output file exists, so
the read-back raises a file-not-found error. -/
def create_video_from_frames (h : Host) (frames : List Image) (fps : Nat)
    (returnUrl : Bool) : Except PyError VideoResult :=
  if frames.isEmpty then .error .valueErrorNoFrames
  else if h.writerOpens then
    let vid : EncodedVideo := ⟨frames.map Image.toBgr, fps⟩
    if returnUrl then
      if h.uploadOk then .ok (.hosted vid) else .ok (.b64 vid)
    else .ok (.b64 vid)
  else .error .fileNotFound

/-- String form of a raised exception, as interpolated into the response. -/
def errText : PyError → String
  | .valueErrorNoFrames => "No frames to create video"
  | .fileNotFound => "output file not found"
  | .encodingError => "encoding error"
  | .downloadFailed => "Failed to download image"
  | .aiFailed => "AI generation failed"

/-- The collaborators one `generate_ai_kiss_video` call can observe: the two
image downloads (none models a raised download error; the code downloads the
same URLs again on the fallback path, with the same outcome from a
deterministic host), the AI pipeline outcome (none models `load_ai_models` or
`generate_kiss_video_frames` raising), the writer and upload outcomes, and the
elapsed wall-clock time interpolated into `processing_time`. -/
structure GenHost where
  writerOpens : Bool
  uploadOk : Bool
  source : Option Image
  target : Option Image
  aiFrames : Option (List Image)
  elapsed : Nat

def GenHost.host (g : GenHost) : Host := ⟨g.writerOpens, g.uploadOk⟩

/-- The response dict assembled by the handler.  Every key that any outcome
path can set is a field; `none` models the key being absent from the dict. -/
structure Response where
  status : String
  video : Option EncodedVideo := none
  videoUrl : Option EncodedVideo := none
  note : Option String := none
  processingTime : Option Nat := none
  numFrames : Option Nat := none
  resolution : Option (Nat × Nat) := none
  modelUsed : Option String := none
  errorMsg : Option String := none
  fallbackError : Option String := none

def successNote : String := "Real AI models loaded and generating human kiss scenes"

def uploadFailNote : String := "Upload failed, returned base64 instead"

/-- The try-block of `generate_ai_kiss_video` (handler.serverless.py lines
446-460): download both images, load the models, generate the AI frames, and
encode them; the first raised exception aborts the block. -/
def mainAttempt (g : GenHost) (returnUrl : Bool) :
    Except PyError (List Image × VideoResult) :=
  match g.source, g.target, g.aiFrames with
  | none, _, _ => .error .downloadFailed
  | some _, none, _ => .error .downloadFailed
  | some _, some _, none => .error .aiFailed
  | some _, some _, some frames =>
    match create_video_from_frames g.host frames 24 returnUrl with
    | .error e => .error e
    | .ok vr => .ok (frames, vr)

/-- `generate_ai_kiss_video` from handler.serverless.py lines 442-535: on main
success, the success record of lines 464-494; on any exception, the morphing
fallback of lines 502-528 (note its record carries no `num_frames` and no
`resolution`); if the fallback also raises, the error record of lines 529-535. -/
noncomputable def generate_ai_kiss_video (g : GenHost) (returnUrl : Bool) : Response :=
  match mainAttempt g returnUrl with
  | .ok (frames, vr) =>
    let base : Response :=
      { status := "success"
        processingTime := some g.elapsed
        numFrames := some frames.length
        modelUsed := some "Wan-AI 14B I2V + Kissing LoRA (Real AI Implementation)"
        resolution := some (512, 512)
        note := some successNote }
    if returnUrl then
      match vr with
      | .hosted v => { base with videoUrl := some v }
      | .b64 v =>
        { base with
          video := some v
          note := some (successNote ++ " (Upload failed, returned base64 instead)") }
    else { base with video := some vr.video }
  | .error e =>
    match g.source, g.target with
    | some s, some t =>
      match create_video_from_frames g.host (create_morphing_fallback_frames s t)
          24 returnUrl with
      | .ok fvr =>
        let base : Response :=
          { status := "fallback_success"
            processingTime := some g.elapsed
            modelUsed := some "morphing_fallback"
            errorMsg := some (errText e) }
        if returnUrl then
          match fvr with
          | .hosted v => { base with videoUrl := some v }
          | .b64 v =>
            { base with
              video := some v
              note := some uploadFailNote }
        else { base with video := some fvr.video }
      | .error fe =>
        { status := "error"
          errorMsg := some (errText e)
          fallbackError := some (errText fe)
          processingTime := some g.elapsed }
    | _, _ =>
      { status := "error"
        errorMsg := some (errText e)
        fallbackError := some (errText .downloadFailed)
        processingTime := some g.elapsed }

/-! Concrete test rasters and shared helper lemmas for the claim theorems. -/

/-- A solid black 512 by 512 raster (a preprocessed endpoint image). -/
def black512 : Image := constImage 512 512 ⟨0, 0, 0⟩

/-- A solid white 512 by 512 raster (a preprocessed endpoint image). -/
def white512 : Image := constImage 512 512 ⟨255, 255, 255⟩

/-- A solid 512 by 512 raster with every channel equal to 2. -/
def gray2at512 : Image := constImage 512 512 ⟨2, 2, 2⟩

/-- A solid white landscape raster, 256 wide by 128 tall (non-square). -/
def white256x128 : Image := constImage 256 128 ⟨255, 255, 255⟩

theorem black512_valid : black512.valid := fun _ _ => by
  refine ⟨?_, ?_, ?_⟩ <;> norm_num [black512, constImage]

theorem white512_valid : white512.valid := fun _ _ => by
  refine ⟨?_, ?_, ?_⟩ <;> norm_num [white512, constImage]

/-- Indexing into the frame list of the interpolation loop. -/
theorem morphFrames_get (s t : Image) {n i : Nat} (h : i < n) :
    (morphFrames s t n).get? i = some (morphFrame s t n i) := by
  simp only [morphFrames, List.get?_eq_getElem?, List.getElem?_map,
    List.getElem?_range h, Option.map_some']

/-- Whenever the easing weight of a frame is exactly 0, the frame reproduces
the (512 by 512, 8-bit) source image exactly. -/
theorem morphFrame_eq_source {s : Image} (hs : s.valid) (hw : s.width = 512)
    (hh : s.height = 512) (t : Image) {n i : Nat} (ha : morphAlpha n i = 0) :
    morphFrame s t n i = s := by
  have hrs : s.resize 512 512 = s := resize_self s hw hh
  ext x y
  · exact hw.symm
  · exact hh.symm
  · show blendPix (morphAlpha n i) ((s.resize 512 512).pixel x y)
        ((t.resize 512 512).pixel x y) = s.pixel x y
    rw [ha, hrs, blendPix_zero (hs x y)]

/-- C2's pixel rule exactly as the claim states it: the blend computed in
floating point, clamped to [0, 255], then rounded to (nearest) integer. -/
noncomputable def claimC2Channel (a : ℝ) (s t : Nat) : ℤ :=
  round (min (255 : ℝ) (max 0 ((1 - a) * (s : ℝ) + a * (t : ℝ))))

/-- C1: counterexample to the claim as stated.  With a black preprocessed
source image and a white preprocessed target image and frameCount = 48, the
last frame (index 47) is the black source again, not the white target: the
easing weight is exactly 0 at t = 1, so the final pixel sits 255 intensity
units from the target, far outside the claimed tolerance of 1 per channel. -/
theorem claimC1_counterexample :
    (morphFrames black512 white512 48).get? 47 = some black512 ∧
    (black512.pixel 0 0).r = 0 ∧ (white512.pixel 0 0).r = 255 ∧
    ¬ (((white512.pixel 0 0).r : ℤ) - ((black512.pixel 0 0).r : ℤ) ≤ 1) := by
  refine ⟨?_, rfl, rfl, by norm_num [black512, white512, constImage]⟩
  rw [morphFrames_get black512 white512 (by norm_num)]
  rw [morphFrame_eq_source black512_valid rfl rfl white512
      (morphAlpha_last (by norm_num))]

/-- C1 (amended): for already-preprocessed (512 by 512, 8-bit) endpoint images
and frameCount at least 2, frame 0 equals the source image exactly -- and the
last frame, frame (frameCount - 1), ALSO equals the source image exactly.  The
easing weight 0.5*(1 + sin(2*pi*t - pi/2)) = 0.5*(1 - cos(2*pi*t)) is 0 at
both t = 0 and t = 1 (the curve loops source -> target -> source); the claim's
assertion that the last frame equals the target is what fails. -/
theorem c1_endpoint_frames_return_to_source (s t : Image) (n : Nat)
    (hs : s.valid) (hw : s.width = 512) (hh : s.height = 512) (hn : 2 ≤ n) :
    (morphFrames s t n).get? 0 = some s ∧
    (morphFrames s t n).get? (n - 1) = some s := by
  constructor
  · rw [morphFrames_get s t (by omega)]
    rw [morphFrame_eq_source hs hw hh t (morphAlpha_zero n)]
  · rw [morphFrames_get s t (by omega)]
    rw [morphFrame_eq_source hs hw hh t (morphAlpha_last hn)]

/-- C1 witness: the amended endpoint theorem applied to the concrete black and
white preprocessed images with frameCount 48. -/
theorem c1_endpoint_frames_return_to_source_witness :
    black512.valid ∧ black512.width = 512 ∧ black512.height = 512 ∧ 2 ≤ 48 ∧
    ((morphFrames black512 white512 48).get? 0 = some black512 ∧
     (morphFrames black512 white512 48).get? 47 = some black512) :=
  ⟨black512_valid, rfl, rfl, by norm_num,
    c1_endpoint_frames_return_to_source black512 white512 48 black512_valid rfl rfl
      (by norm_num)⟩

/-- C2: counterexample to the claim as stated.  At frame 23 of 48 the easing
weight lies strictly between 3/4 and 1; blending channel values 0 (source) and
2 (target) gives a float strictly between 1.5 and 2, which the code's uint8
cast truncates to 1, while the claim's clamp-and-round rule yields 2. -/
theorem claimC2_counterexample :
    ((morphFrame black512 gray2at512 48 23).pixel 0 0).r = 1 ∧
    claimC2Channel (morphAlpha 48 23) 0 2 = 2 ∧
    (((morphFrame black512 gray2at512 48 23).pixel 0 0).r : ℤ) ≠
      claimC2Channel (morphAlpha 48 23) 0 2 := by
  obtain ⟨hl, hu⟩ := morphAlpha_23_bounds
  have hval : (1 - morphAlpha 48 23) * ((0 : Nat) : ℝ) +
      morphAlpha 48 23 * ((2 : Nat) : ℝ) = 2 * morphAlpha 48 23 := by
    push_cast; ring
  have hfloor : ⌊(2 : ℝ) * morphAlpha 48 23⌋ = 1 := by
    rw [Int.floor_eq_iff]
    constructor <;> push_cast <;> linarith
  have hcode : ((morphFrame black512 gray2at512 48 23).pixel 0 0).r = 1 := by
    show blendChannel (morphAlpha 48 23) 0 2 = 1
    rw [blendChannel, hval, uint8OfReal, hfloor]
    rfl
  have hclaim : claimC2Channel (morphAlpha 48 23) 0 2 = 2 := by
    rw [claimC2Channel, hval, max_eq_right (by linarith), min_eq_right (by linarith),
      round_eq, Int.floor_eq_iff]
    constructor <;> push_cast <;> linarith
  refine ⟨hcode, hclaim, ?_⟩
  rw [hcode, hclaim]
  norm_num

/-- C2 (amended): each stored channel of interpolated frame i is the float64
blend (1 - alpha) * source + alpha * target truncated toward zero (the uint8
cast), not rounded to nearest.  For every channel value the float64 program
can produce: the stored value lies within 1 of the exact-real clamp-then-floor
of the blend; it equals it whenever the exact blend sits at least one float
error envelope inside the integer interval around its floor; and at equal
source/target channels (exact blend the integer s) the stored value is s or
s - 1 -- the one-ulp-below slip of the double that the exact-real model alone
cannot see. -/
theorem c2_pixel_rule_fp_truncation (n i s t r : Nat) (hs : s ≤ 255)
    (ht : t ≤ 255) (hr : fpBlendOutcome (morphAlpha n i) s t r) :
    |(r : ℤ) - ⌊min (255 : ℝ) (max 0 ((1 - morphAlpha n i) * (s : ℝ) +
        morphAlpha n i * (t : ℝ)))⌋| ≤ 1 ∧
    (((⌊(1 - morphAlpha n i) * (s : ℝ) + morphAlpha n i * (t : ℝ)⌋ : ℝ) + fpErr ≤
        (1 - morphAlpha n i) * (s : ℝ) + morphAlpha n i * (t : ℝ) ∧
      (1 - morphAlpha n i) * (s : ℝ) + morphAlpha n i * (t : ℝ) + fpErr <
        (⌊(1 - morphAlpha n i) * (s : ℝ) + morphAlpha n i * (t : ℝ)⌋ : ℝ) + 1) →
      (r : ℤ) = ⌊min (255 : ℝ) (max 0 ((1 - morphAlpha n i) * (s : ℝ) +
        morphAlpha n i * (t : ℝ)))⌋) ∧
    (s = t → r = s ∨ r + 1 = s) := by
  obtain ⟨h0, h1⟩ := morphAlpha_mem n i
  obtain ⟨v, hv, hrv⟩ := hr
  have hsr : (s : ℝ) ≤ 255 := by exact_mod_cast hs
  have htr : (t : ℝ) ≤ 255 := by exact_mod_cast ht
  have hs0 : (0 : ℝ) ≤ (s : ℝ) := Nat.cast_nonneg s
  have ht0 : (0 : ℝ) ≤ (t : ℝ) := Nat.cast_nonneg t
  set a := morphAlpha n i with ha
  set b := (1 - a) * (s : ℝ) + a * (t : ℝ) with hb
  have hb0 : 0 ≤ b := by rw [hb]; nlinarith
  have hb255 : b ≤ 255 := by rw [hb]; nlinarith
  have hclamp : min (255 : ℝ) (max 0 b) = b := by
    rw [max_eq_right hb0, min_eq_right hb255]
  have hfepos : (0 : ℝ) < fpErr := by rw [fpErr]; positivity
  have hfehalf : fpErr < 1 / 2 := by rw [fpErr]; norm_num
  obtain ⟨hvl, hvu⟩ := abs_le.mp hv
  have hbfl : (⌊b⌋ : ℝ) ≤ b := Int.floor_le b
  have hbfu : b < (⌊b⌋ : ℝ) + 1 := Int.lt_floor_add_one b
  have hbfl0 : 0 ≤ ⌊b⌋ := Int.floor_nonneg.mpr hb0
  have hbf255 : ⌊b⌋ ≤ 255 := by
    have h2 : b < ((256 : ℤ) : ℝ) := by push_cast; linarith
    have := Int.floor_lt.mpr h2
    omega
  have hfl : ⌊b⌋ - 1 ≤ ⌊v⌋ := by
    apply Int.le_floor.mpr
    push_cast
    linarith
  have hfu : ⌊v⌋ ≤ ⌊b⌋ + 1 := by
    have h2 : v < ((⌊b⌋ + 2 : ℤ) : ℝ) := by push_cast; linarith
    have := Int.floor_lt.mpr h2
    omega
  have hvle : ⌊v⌋ ≤ 255 := by
    have h2 : v < ((256 : ℤ) : ℝ) := by push_cast; linarith
    have := Int.floor_lt.mpr h2
    omega
  refine ⟨?_, ?_, ?_⟩
  · rw [hclamp, abs_le]
    constructor <;> omega
  · rintro ⟨hm1, hm2⟩
    rw [hclamp]
    have hveq : ⌊v⌋ = ⌊b⌋ := by
      rw [Int.floor_eq_iff]
      exact ⟨by linarith, by linarith⟩
    omega
  · intro hst
    subst hst
    have hbeq : b = (s : ℝ) := by rw [hb]; ring
    have hfbs : ⌊b⌋ = (s : ℤ) := by rw [hbeq, Int.floor_natCast]
    have hsup : ⌊v⌋ ≤ (s : ℤ) := by
      have h2 : v < (((s : Nat) : ℤ) + 1 : ℤ) := by
        push_cast
        rw [hbeq] at hvu
        linarith
      have := Int.floor_lt.mpr (by exact_mod_cast h2)
      omega
    omega

/-- C2 witness: the float-truncation theorem at frame 1 of 48 with both
channels 5 and stored value 5 (the exact-blend outcome inside the envelope),
exercising the equal-channel conjunct. -/
theorem c2_pixel_rule_fp_truncation_witness :
    (5 : Nat) ≤ 255 ∧ fpBlendOutcome (morphAlpha 48 1) 5 5 5 ∧
    ((5 : Nat) = 5 → (5 : Nat) = 5 ∨ (5 : Nat) + 1 = 5) := by
  have hout : fpBlendOutcome (morphAlpha 48 1) 5 5 5 := by
    refine ⟨(5 : ℝ), ?_, ?_⟩
    · have hb5 : (1 - morphAlpha 48 1) * ((5 : Nat) : ℝ) +
          morphAlpha 48 1 * ((5 : Nat) : ℝ) = 5 := by push_cast; ring
      rw [hb5, sub_self, abs_zero, fpErr]
      positivity
    · simp
  exact ⟨by norm_num, hout,
    (c2_pixel_rule_fp_truncation 48 1 5 5 5 (by norm_num) (by norm_num) hout).2.2⟩

/-- C3 (confirmed): the interpolation loop over n frames produces exactly n
frames, and every frame is exactly 512 by 512 (the configured resolution),
independent of the input image sizes -- so all frames of one video share
identical dimensions. -/
theorem c3_frame_count_and_dims (s t : Image) (n : Nat) (hn : 2 ≤ n) :
    (morphFrames s t n).length = n ∧
    ∀ f ∈ morphFrames s t n, f.width = 512 ∧ f.height = 512 := by
  constructor
  · simp [morphFrames]
  · intro f hf
    simp only [morphFrames, List.mem_map] at hf
    obtain ⟨i, _, rfl⟩ := hf
    exact ⟨rfl, rfl⟩

/-- C3 witness: the count and dimension theorem at the concrete white and
black images and the code's frame count 48. -/
theorem c3_frame_count_and_dims_witness :
    2 ≤ 48 ∧ ((morphFrames white512 black512 48).length = 48 ∧
      ∀ f ∈ morphFrames white512 black512 48, f.width = 512 ∧ f.height = 512) :=
  ⟨by norm_num, c3_frame_count_and_dims white512 black512 48 (by norm_num)⟩

/-- The ambient state a handler invocation can observe while generating the
morphing frames: the torch RNG seed (used only by the AI path), the wall
clock and the generated temp-file name (used only for the output file).  The
frame computation is a closed arithmetic function of the two images and the
frame count and reads none of these. -/
structure Env where
  rngSeed : Nat
  clock : Nat
  tmpName : String

/-- The morphing interpolator as executed within a handler invocation holding
ambient state. -/
noncomputable def morphFramesRun (e : Env) (s t : Image) (n : Nat) : List Image :=
  morphFrames s t n

/-- C4 (confirmed): the frame interpolator is deterministic.  Two runs under
arbitrary ambient states (RNG seed, clock, temp names) with identical inputs
produce identical frame sequences: the morphing path contains no randomness
(unlike the AI path, whose mock pipeline draws from np.random). -/
theorem c4_determinism (e1 e2 : Env) (s t : Image) (n : Nat) :
    morphFramesRun e1 s t n = morphFramesRun e2 s t n := rfl

/-- The scaled width never exceeds the (square) target width. -/
theorem scaledW_le (img : Image) (hh : 1 ≤ img.height) :
    scaledW img 512 512 ≤ 512 := by
  rw [scaledW]
  split
  · exact le_refl _
  · calc 512 * img.width / img.height ≤ 512 * img.height / img.height :=
          Nat.div_le_div_right (Nat.mul_le_mul_left 512 (by omega))
      _ = 512 := Nat.mul_div_cancel 512 (by omega)

/-- The scaled height never exceeds the (square) target height. -/
theorem scaledH_le (img : Image) (hw : 1 ≤ img.width) :
    scaledH img 512 512 ≤ 512 := by
  rw [scaledH]
  split
  · calc 512 * img.height / img.width ≤ 512 * img.width / img.width :=
          Nat.div_le_div_right (Nat.mul_le_mul_left 512 (by omega))
      _ = 512 := Nat.mul_div_cancel 512 (by omega)
  · exact le_refl _

/-- A solid 128 wide by 93 tall raster: a size at which the program's float64
division int(512 / (128 / 93)) yields 371, one below the exact floor 372 of
512 * 93 / 128. -/
def img128x93 : Image := constImage 128 93 ⟨9, 9, 9⟩

/-- The canvas-assembly guarantees of the letterbox paste, for any scaled
dimensions that fit the 512 by 512 canvas: symmetric pads, full containment
(no cropping), pasted pixels unchanged, black padding outside. -/
theorem letterbox_assembly (img : Image) {nw nh : Nat} (hnw : nw ≤ 512)
    (hnh : nh ≤ 512) :
    (512 - nw) / 2 + nw ≤ 512 ∧ (512 - nh) / 2 + nh ≤ 512 ∧
    (∀ x y, x < nw → y < nh →
      (letterbox img nw nh).pixel ((512 - nw) / 2 + x) ((512 - nh) / 2 + y) =
        (img.resize nw nh).pixel x y) ∧
    (∀ x y, (x < (512 - nw) / 2 ∨ (512 - nw) / 2 + nw ≤ x ∨
        y < (512 - nh) / 2 ∨ (512 - nh) / 2 + nh ≤ y) →
      (letterbox img nw nh).pixel x y = ⟨0, 0, 0⟩) := by
  refine ⟨?_, ?_, ?_, ?_⟩
  · have := Nat.div_le_self (512 - nw) 2
    omega
  · have := Nat.div_le_self (512 - nh) 2
    omega
  · intro x y hx hy
    show (if (512 - nw) / 2 ≤ (512 - nw) / 2 + x ∧
        (512 - nw) / 2 + x < (512 - nw) / 2 + nw ∧
        (512 - nh) / 2 ≤ (512 - nh) / 2 + y ∧
        (512 - nh) / 2 + y < (512 - nh) / 2 + nh then
        (img.resize nw nh).pixel ((512 - nw) / 2 + x - (512 - nw) / 2)
          ((512 - nh) / 2 + y - (512 - nh) / 2)
      else ⟨0, 0, 0⟩) = _
    rw [if_pos (by omega)]
    congr 1 <;> omega
  · intro x y hout
    show (if (512 - nw) / 2 ≤ x ∧ x < (512 - nw) / 2 + nw ∧
        (512 - nh) / 2 ≤ y ∧ y < (512 - nh) / 2 + nh then
        (img.resize nw nh).pixel (x - (512 - nw) / 2) (y - (512 - nh) / 2)
      else ⟨0, 0, 0⟩) = ⟨0, 0, 0⟩
    rw [if_neg (by omega)]

/-- C5 (confirmed): for every decodable image with nonzero dimensions within
the sizes the pipeline admits (the downloader rejects images under 64 pixels
and shrinks anything over 4096 before preprocessing), and for EVERY scaled
size the float64 program can compute, the letterbox output is exactly the
512 by 512 target; the longer side maps exactly onto the corresponding target
dimension while the other side preserves the aspect ratio up to the integer
truncation plus at most one unit of float64 slip (nh * long <= 512 * short <
(nh + 2) * long in the wide branch; the exact floor characterization in the
tall branch, whose multiply is float64-exact in this range); padding is the
symmetric (512 - scaled) / 2, the scaled image fits entirely on the canvas
(no cropping), the padded area is black, and pasted pixels reproduce the
resized image unchanged. -/
theorem c5_preprocess_letterbox_prog (img : Image) (hw1 : 1 ≤ img.width)
    (hh1 : 1 ≤ img.height) (hw4 : img.width ≤ 4096) (hh4 : img.height ≤ 4096)
    (nw nh : Nat) (hnw : progScaledW img nw) (hnh : progScaledH img nh) :
    (letterbox img nw nh).width = 512 ∧
    (letterbox img nw nh).height = 512 ∧
    (img.height < img.width → nw = 512 ∧
      nh * img.width ≤ 512 * img.height ∧
      512 * img.height < (nh + 2) * img.width) ∧
    (img.width ≤ img.height → nh = 512 ∧
      nw * img.height ≤ 512 * img.width ∧
      512 * img.width < (nw + 1) * img.height) ∧
    nw ≤ 512 ∧ nh ≤ 512 ∧
    ((512 - nw) / 2 + nw ≤ 512 ∧ (512 - nh) / 2 + nh ≤ 512 ∧
    (∀ x y, x < nw → y < nh →
      (letterbox img nw nh).pixel ((512 - nw) / 2 + x) ((512 - nh) / 2 + y) =
        (img.resize nw nh).pixel x y) ∧
    (∀ x y, (x < (512 - nw) / 2 ∨ (512 - nw) / 2 + nw ≤ x ∨
        y < (512 - nh) / 2 ∨ (512 - nh) / 2 + nh ≤ y) →
      (letterbox img nw nh).pixel x y = ⟨0, 0, 0⟩)) := by
  have hWle := scaledW_le img hh1
  have hHle := scaledH_le img hw1
  have hnw' : nw = scaledW img 512 512 := hnw
  have hnwle : nw ≤ 512 := by omega
  by_cases hcase : img.height < img.width
  · rw [progScaledH, if_pos hcase] at hnh
    have hsW : scaledW img 512 512 = 512 := by rw [scaledW]; exact if_pos hcase
    have hsH : scaledH img 512 512 = 512 * img.height / img.width := by
      rw [scaledH]; exact if_pos hcase
    rw [hsH] at hnh
    have hFl : 512 * img.height / img.width * img.width ≤ 512 * img.height :=
      Nat.div_mul_le_self _ _
    have hFu : 512 * img.height <
        (512 * img.height / img.width + 1) * img.width := by
      have hmod := Nat.div_add_mod (512 * img.height) img.width
      have hltm : (512 * img.height) % img.width < img.width :=
        Nat.mod_lt _ (by omega)
      nlinarith
    have hnhF : nh ≤ 512 * img.height / img.width ∧
        512 * img.height / img.width ≤ nh + 1 := by
      rcases hnh with h | ⟨h, _⟩ <;> omega
    have hnhle : nh ≤ 512 := by rw [hsH] at hHle; omega
    refine ⟨rfl, rfl, ?_, ?_, hnwle, hnhle, letterbox_assembly img hnwle hnhle⟩
    · intro _
      refine ⟨by omega, ?_, ?_⟩
      · calc nh * img.width ≤ 512 * img.height / img.width * img.width :=
              Nat.mul_le_mul_right _ hnhF.1
          _ ≤ 512 * img.height := hFl
      · calc 512 * img.height < (512 * img.height / img.width + 1) * img.width :=
              hFu
          _ ≤ (nh + 2) * img.width := Nat.mul_le_mul_right _ (by omega)
    · intro hle
      exact absurd hcase (not_lt.mpr hle)
  · rw [progScaledH, if_neg hcase] at hnh
    have hsW : scaledW img 512 512 = 512 * img.width / img.height := by
      rw [scaledW]; exact if_neg hcase
    have hsH : scaledH img 512 512 = 512 := by rw [scaledH]; exact if_neg hcase
    have hnh512 : nh = 512 := by rw [hnh, hsH]
    have hnhle : nh ≤ 512 := by omega
    refine ⟨rfl, rfl, ?_, ?_, hnwle, hnhle, letterbox_assembly img hnwle hnhle⟩
    · intro hlt
      exact absurd hlt hcase
    · intro _
      refine ⟨hnh512, ?_, ?_⟩
      · rw [hnw', hsW]
        exact Nat.div_mul_le_self _ _
      · rw [hnw', hsW]
        have hmod := Nat.div_add_mod (512 * img.width) img.height
        have hltm : (512 * img.width) % img.height < img.height :=
          Nat.mod_lt _ (by omega)
        nlinarith

/-- C5 witness: the letterbox theorem at the concrete 128 by 93 image with the
scaled height 371 the float64 program actually computes there (one below the
exact floor 372, via the second disjunct of the envelope). -/
theorem c5_preprocess_letterbox_prog_witness :
    1 ≤ img128x93.width ∧ img128x93.width ≤ 4096 ∧
    progScaledW img128x93 512 ∧ progScaledH img128x93 371 ∧
    (letterbox img128x93 512 371).width = 512 ∧
    (letterbox img128x93 512 371).height = 512 := by
  have hpw : progScaledW img128x93 512 := by
    show 512 = scaledW img128x93 512 512
    decide
  have hph : progScaledH img128x93 371 := by
    rw [progScaledH, if_pos (by decide : img128x93.height < img128x93.width)]
    exact Or.inr ⟨by decide, by decide⟩
  have hmain := c5_preprocess_letterbox_prog img128x93 (by decide) (by decide)
    (by decide) (by decide) 512 371 hpw hph
  exact ⟨by decide, by decide, hpw, hph, hmain.1, hmain.2.1⟩

/-- C6 (confirmed): the encode step raises the empty-frame-sequence error
(Python ValueError "No frames to create video") exactly when the frame list is
empty; on every non-empty list it proceeds past the check and, whenever the
writer opens, writes exactly the given frames, BGR-converted, in order. -/
theorem c6_empty_frames_iff (h : Host) (frames : List Image) (fps : Nat)
    (returnUrl : Bool) :
    (create_video_from_frames h frames fps returnUrl = .error .valueErrorNoFrames
      ↔ frames = []) ∧
    (frames ≠ [] → h.writerOpens = true →
      ∃ v : VideoResult, create_video_from_frames h frames fps returnUrl = .ok v ∧
        v.video = ⟨frames.map Image.toBgr, fps⟩) := by
  rcases h with ⟨wo, uo⟩
  rcases frames with _ | ⟨f, fs⟩
  · exact ⟨by simp [create_video_from_frames], fun hne _ => absurd rfl hne⟩
  · cases wo <;> cases returnUrl <;> cases uo <;>
      simp [create_video_from_frames, VideoResult.video]

/-- C6 witness: the empty-iff-error equivalence and the non-empty write
behaviour at a concrete host and one-frame list. -/
theorem c6_empty_frames_iff_witness :
    ((create_video_from_frames ⟨true, true⟩ [white512] 24 false =
        .error .valueErrorNoFrames ↔ ([white512] : List Image) = []) ∧
      (([white512] : List Image) ≠ [] → (⟨true, true⟩ : Host).writerOpens = true →
        ∃ v : VideoResult, create_video_from_frames ⟨true, true⟩ [white512] 24 false =
          .ok v ∧ v.video = ⟨[white512].map Image.toBgr, 24⟩)) :=
  c6_empty_frames_iff ⟨true, true⟩ [white512] 24 false

/-- C7: counterexample to the claim as stated.  On a host whose OpenCV backend
cannot open the mp4v writer, a non-empty encode call surfaces a file-not-found
error from the read-back of the never-created output file -- not the claimed
EncodingError. -/
theorem claimC7_counterexample :
    create_video_from_frames ⟨false, true⟩ [black512] 24 false =
      .error .fileNotFound ∧
    (Except.error PyError.fileNotFound : Except PyError VideoResult) ≠
      Except.error PyError.encodingError :=
  ⟨rfl, by simp⟩

/-- C7 (amended): the code never checks whether the writer opened.  When the
writer cannot be opened, all frame writes are silent no-ops and the call then
fails with a file-read (file-not-found) error on the missing output file: it
does fail rather than silently return an empty video, but no distinct
encoding/writer-open error is ever raised -- in fact no call of the encode
step, on any host and any input, produces the EncodingError category. -/
theorem c7_writer_open_failure (h : Host) (frames : List Image) (fps : Nat)
    (returnUrl : Bool) (hne : frames ≠ []) (hwo : h.writerOpens = false) :
    create_video_from_frames h frames fps returnUrl = .error .fileNotFound ∧
    (∀ v : VideoResult, create_video_from_frames h frames fps returnUrl ≠ .ok v) ∧
    (∀ (h2 : Host) (fr2 : List Image) (fps2 : Nat) (u2 : Bool),
      create_video_from_frames h2 fr2 fps2 u2 ≠ .error .encodingError) := by
  have hfirst : create_video_from_frames h frames fps returnUrl =
      .error .fileNotFound := by
    rcases frames with _ | ⟨f, fs⟩
    · exact absurd rfl hne
    · simp [create_video_from_frames, hwo]
  refine ⟨hfirst, ?_, ?_⟩
  · intro v hv
    rw [hfirst] at hv
    simp at hv
  · intro h2 fr2 fps2 u2
    rcases h2 with ⟨wo2, uo2⟩
    rcases fr2 with _ | ⟨f2, fs2⟩
    · simp [create_video_from_frames]
    · cases wo2 <;> cases u2 <;> cases uo2 <;> simp [create_video_from_frames]

/-- C7 witness: the writer-failure behaviour at a concrete failing host and a
concrete one-frame list. -/
theorem c7_writer_open_failure_witness :
    ([white512] : List Image) ≠ [] ∧ (⟨false, true⟩ : Host).writerOpens = false ∧
    create_video_from_frames ⟨false, true⟩ [white512] 24 true =
      .error .fileNotFound :=
  ⟨by simp, rfl,
    (c7_writer_open_failure ⟨false, true⟩ [white512] 24 true (by simp) rfl).1⟩

/-- The 48-frame morphing fallback list is never empty. -/
theorem morph_fallback_not_isEmpty (s t : Image) :
    (create_morphing_fallback_frames s t).isEmpty = false := by
  simp [create_morphing_fallback_frames, morphFrames]

/-- C8 (confirmed): when output_format is "url" and the upload sink fails, the
request still completes: the response status is "success" (AI path went
through) or "fallback_success" (morphing path), never "error"; the video is
delivered inline in the "video" field instead of "video_url"; and the response
carries a note stating that the upload failed and base64 was returned. -/
theorem c8_upload_failure_graceful (g : GenHost) (s t : Image)
    (hsrc : g.source = some s) (htgt : g.target = some t)
    (hwo : g.writerOpens = true) (hup : g.uploadOk = false) :
    ((generate_ai_kiss_video g true).status = "success" ∨
     (generate_ai_kiss_video g true).status = "fallback_success") ∧
    (generate_ai_kiss_video g true).status ≠ "error" ∧
    (∃ v, (generate_ai_kiss_video g true).video = some v) ∧
    (generate_ai_kiss_video g true).videoUrl = none ∧
    ((generate_ai_kiss_video g true).note =
        some (successNote ++ " (Upload failed, returned base64 instead)") ∨
     (generate_ai_kiss_video g true).note = some uploadFailNote) := by
  have hmorph := morph_fallback_not_isEmpty s t
  rcases hai : g.aiFrames with _ | frames
  · simp [generate_ai_kiss_video, mainAttempt, hsrc, htgt, hai, GenHost.host,
      create_video_from_frames, hmorph, hwo, hup]
  · rcases frames with _ | ⟨f, fs⟩
    · simp [generate_ai_kiss_video, mainAttempt, hsrc, htgt, hai, GenHost.host,
        create_video_from_frames, hmorph, hwo, hup]
    · simp [generate_ai_kiss_video, mainAttempt, hsrc, htgt, hai, GenHost.host,
        create_video_from_frames, hwo, hup]

/-- C8 witness: graceful upload degradation on a concrete host with a working
writer, a failing upload sink, and a successfully generated AI frame. -/
theorem c8_upload_failure_graceful_witness :
    (⟨true, false, some black512, some white512, some [black512], 5⟩ : GenHost).source
        = some black512 ∧
    (⟨true, false, some black512, some white512, some [black512], 5⟩ : GenHost).uploadOk
        = false ∧
    ((generate_ai_kiss_video ⟨true, false, some black512, some white512,
        some [black512], 5⟩ true).status = "success" ∨
     (generate_ai_kiss_video ⟨true, false, some black512, some white512,
        some [black512], 5⟩ true).status = "fallback_success") :=
  ⟨rfl, rfl,
    (c8_upload_failure_graceful ⟨true, false, some black512, some white512,
      some [black512], 5⟩ black512 white512 rfl rfl rfl rfl).1⟩

/-- C9: counterexample to the claim as stated.  On the morphing-fallback path
(here: the AI pipeline raised, both downloads and the writer fine) the
assembled record has status "fallback_success" but carries neither a frame
count nor a resolution field. -/
theorem claimC9_counterexample :
    (generate_ai_kiss_video ⟨true, true, some black512, some white512, none, 7⟩
        false).status = "fallback_success" ∧
    (generate_ai_kiss_video ⟨true, true, some black512, some white512, none, 7⟩
        false).numFrames = none ∧
    (generate_ai_kiss_video ⟨true, true, some black512, some white512, none, 7⟩
        false).resolution = none := by
  have hmorph := morph_fallback_not_isEmpty black512 white512
  refine ⟨?_, ?_, ?_⟩ <;>
    simp [generate_ai_kiss_video, mainAttempt, GenHost.host,
      create_video_from_frames, hmorph]

/-- C9 (amended): every outcome path carries a status (one of "success",
"fallback_success", "error") and a processing duration; but only the success
record carries the frame count, the resolution and the full model identifier.
The morphing-fallback record carries the method identifier
"morphing_fallback" and omits frame count and resolution; the error record
omits the model identifier and the frame count as well. -/
theorem c9_result_fields (g : GenHost) (returnUrl : Bool) :
    (generate_ai_kiss_video g returnUrl).processingTime = some g.elapsed ∧
    ((generate_ai_kiss_video g returnUrl).status = "success" ∨
     (generate_ai_kiss_video g returnUrl).status = "fallback_success" ∨
     (generate_ai_kiss_video g returnUrl).status = "error") ∧
    ((generate_ai_kiss_video g returnUrl).status = "success" →
      (generate_ai_kiss_video g returnUrl).numFrames.isSome = true ∧
      (generate_ai_kiss_video g returnUrl).resolution = some (512, 512) ∧
      (generate_ai_kiss_video g returnUrl).modelUsed =
        some "Wan-AI 14B I2V + Kissing LoRA (Real AI Implementation)") ∧
    ((generate_ai_kiss_video g returnUrl).status = "fallback_success" →
      (generate_ai_kiss_video g returnUrl).modelUsed = some "morphing_fallback" ∧
      (generate_ai_kiss_video g returnUrl).numFrames = none ∧
      (generate_ai_kiss_video g returnUrl).resolution = none) ∧
    ((generate_ai_kiss_video g returnUrl).status = "error" →
      (generate_ai_kiss_video g returnUrl).modelUsed = none ∧
      (generate_ai_kiss_video g returnUrl).numFrames = none ∧
      (generate_ai_kiss_video g returnUrl).resolution = none) := by
  rcases hm : mainAttempt g returnUrl with e | ⟨frames, vr⟩
  · rcases hsrc : g.source with _ | s
    · simp [generate_ai_kiss_video, hm, hsrc]
    · rcases htgt : g.target with _ | t
      · simp [generate_ai_kiss_video, hm, hsrc, htgt]
      · rcases henc : create_video_from_frames g.host
            (create_morphing_fallback_frames s t) 24 returnUrl with fe | fvr
        · simp [generate_ai_kiss_video, hm, hsrc, htgt, henc]
        · cases returnUrl <;> rcases fvr with v | v <;>
            simp [generate_ai_kiss_video, hm, hsrc, htgt, henc]
  · cases returnUrl <;> rcases vr with v | v <;>
      simp [generate_ai_kiss_video, hm, VideoResult.video]

/-- C10 (confirmed): on the morphing-fallback path the endpoint images are
rescaled by the direct (aspect-destroying) 512 by 512 resize, never by the
letterbox preprocessor: frame 0 of the fallback on the white 256 by 128 image
IS its direct resize (an all-white square -- the non-square input is
stretched to square), while the letterbox preprocessor of the very same image
is black at pixel (0, 0) (top padding band), so the two preprocessing
functions provably differ on this non-square input. -/
theorem c10_fallback_direct_resize (t : Image) :
    morphFrame white256x128 t 48 0 = white256x128.resize 512 512 ∧
    white256x128.resize 512 512 = constImage 512 512 ⟨255, 255, 255⟩ ∧
    (preprocess_image white256x128 512 512).pixel 0 0 = ⟨0, 0, 0⟩ ∧
    white256x128.resize 512 512 ≠ preprocess_image white256x128 512 512 ∧
    white256x128.width ≠ white256x128.height ∧
    (white256x128.resize 512 512).width = (white256x128.resize 512 512).height := by
  have hres : white256x128.resize 512 512 = constImage 512 512 ⟨255, 255, 255⟩ :=
    resize_constImage 256 128 512 512 ⟨255, 255, 255⟩
  have hpre : (preprocess_image white256x128 512 512).pixel 0 0 = ⟨0, 0, 0⟩ := by
    show (if padX white256x128 512 512 ≤ 0 ∧ 0 < padX white256x128 512 512 +
        scaledW white256x128 512 512 ∧ padY white256x128 512 512 ≤ 0 ∧
        0 < padY white256x128 512 512 + scaledH white256x128 512 512 then
        (white256x128.resize (scaledW white256x128 512 512)
          (scaledH white256x128 512 512)).pixel (0 - padX white256x128 512 512)
          (0 - padY white256x128 512 512)
      else ⟨0, 0, 0⟩) = ⟨0, 0, 0⟩
    have hpy : padY white256x128 512 512 = 128 := by decide
    rw [if_neg (by omega)]
  refine ⟨?_, hres, hpre, ?_, by decide, rfl⟩
  · ext x y
    · rfl
    · rfl
    · show blendPix (morphAlpha 48 0) ((white256x128.resize 512 512).pixel x y)
          ((t.resize 512 512).pixel x y) = (white256x128.resize 512 512).pixel x y
      rw [morphAlpha_zero]
      exact blendPix_zero (valid_resize (fun _ _ => by
        refine ⟨?_, ?_, ?_⟩ <;> norm_num [white256x128, constImage]) 512 512 x y) _
  · intro hEq
    have hpix : (white256x128.resize 512 512).pixel 0 0 =
        (preprocess_image white256x128 512 512).pixel 0 0 := by rw [hEq]
    rw [hpre, hres] at hpix
    simp [constImage] at hpix

end KissVideo
